import Mathlib

/-!
Shallow embedding of `src/main.py` (the "K8s Calculator" service) and proofs
about its bootstrap loop, database provisioning, request-logging middleware,
session scope and `add` endpoint.

Numbers: Python floats are modelled as `PyFloat`, a rational for the finite
values plus the three non-finite IEEE values (`nan`, `inf`, `ninf`).  Rounding
is abstracted away (the claims under study do not concern rounding), but the
finite/non-finite distinction and its propagation through `+` are kept.
-/

set_option autoImplicit false

namespace Calc

/-- Python float values: a finite value (modelled as a rational) or one of the
three non-finite IEEE values. -/
inductive PyFloat where
  | fin : ℚ → PyFloat
  | nan : PyFloat
  | inf : PyFloat
  | ninf : PyFloat
deriving DecidableEq

/-- IEEE-style addition on `PyFloat` (rounding abstracted): any `nan` operand
yields `nan`, opposite infinities yield `nan`, an infinity absorbs a finite
operand, and finite operands add exactly.  This embeds the `result = a + b`
expression of `src/main.py` line 157. -/
def PyFloat.add : PyFloat → PyFloat → PyFloat
  | .nan, _ => .nan
  | _, .nan => .nan
  | .inf, .ninf => .nan
  | .ninf, .inf => .nan
  | .inf, _ => .inf
  | _, .inf => .inf
  | .ninf, _ => .ninf
  | _, .ninf => .ninf
  | .fin a, .fin b => .fin (a + b)

/-- Finiteness of a Python float (`math.isfinite`). -/
def PyFloat.isFinite : PyFloat → Bool
  | .fin _ => true
  | _ => false

/-- One row of the `calculations` table (`class Calculation`, `src/main.py`
lines 84-92).  `id` and `created_at` are store-assigned and carry no content
relevant to the claims, so only the four payload columns are modelled. -/
structure Calculation where
  operation : String
  operand1 : PyFloat
  operand2 : PyFloat
  result : PyFloat
deriving DecidableEq

/-- Python exceptions that the embedded code can raise. -/
inductive PyErr where
  /-- `fastapi.HTTPException(status_code, detail)`. -/
  | httpException (status : Nat) (detail : String)
  /-- A failure raised by the datastore layer, carrying its message. -/
  | dbError (msg : String)
  /-- Reading a local variable that was never assigned on this path. -/
  | unboundLocal (varName : String)
  /-- `RuntimeError(msg)`. -/
  | runtimeError (msg : String)
deriving DecidableEq

/-- The message/detail text carried by an exception (what `exc_info=True` /
`logger.exception` records in the log sink). -/
def PyErr.detail : PyErr → String
  | .httpException _ d => d
  | .dbError m => m
  | .unboundLocal v => v
  | .runtimeError m => m

/-- The body returned by the `add` endpoint on success:
`{"result": result}` (`src/main.py` line 168). -/
structure AddResult where
  result : PyFloat
deriving DecidableEq

/-- A response as seen by the HTTP middleware: only its `status_code` field is
read there (`src/main.py` line 128). -/
structure HttpResponse where
  status : Nat
deriving DecidableEq

/-- Structured log lines written to the observability sink by `src/main.py`. -/
inductive LogEvent where
  /-- `REQUEST_START id=... method=... path=... client=...` (line 114). -/
  | requestStart (id method path client : String)
  /-- `REQUEST_END id=... status=... duration_ms=...` (line 126). -/
  | requestEnd (id : String) (status : Nat) (durationMs : ℚ)
  /-- `USER_ACTION add a=... b=...` (line 154). -/
  | userAction (a b : PyFloat)
  /-- `ADD_SUCCESS result=...` (line 167). -/
  | addSuccess (result : PyFloat)
  /-- `logger.exception("ADD_FAILED")` (line 171), carrying the exception
  detail that `logger.exception` records. -/
  | addFailed (detail : String)
  /-- `DB_SESSION_OPENED` (line 136). -/
  | sessionOpened
  /-- `DB_SESSION_COMMIT` (line 140): a log line only, no commit call. -/
  | sessionCommitLog
  /-- `DB_SESSION_ROLLBACK` with `exc_info=True` (line 142). -/
  | sessionRollback (detail : String)
  /-- `DB_SESSION_CLOSED` (line 147). -/
  | sessionClosed
deriving DecidableEq

/-- Events of the module-level bootstrap sequence (`src/main.py` lines 43-99). -/
inductive BootEvent where
  /-- `MySQL connection attempt {i + 1}` (line 47). -/
  | attempt (n : Nat)
  /-- `MySQL is reachable` (line 51). -/
  | reachable
  /-- `MySQL not ready` (line 54). -/
  | notReady
  /-- `time.sleep(2)` (line 55), recording the slept interval. -/
  | sleep (secs : Nat)
  /-- `MySQL not reachable after retries` (line 57). -/
  | critical
  /-- `Ensuring database exists: {MYSQL_DB}` (line 64). -/
  | ensuring (dbName : String)
  /-- `Database ensured successfully` (line 68). -/
  | ensured
  /-- `Database creation failed` / `Table creation failed` (lines 70, 98). -/
  | provisionFailed
  /-- `Database tables created` (line 96). -/
  | tablesCreated
deriving DecidableEq

/-! ### Environment configuration (lines 33-38, 63-67) -/

/-- `os.getenv(key, default)`: the environment is a partial map from variable
names to values. -/
def getenvD (env : String → Option String) (key default : String) : String :=
  (env key).getD default

/-- `MYSQL_DB = os.getenv("MYSQL_DB", "calculator")` (line 36). -/
def mysqlDbName (env : String → Option String) : String :=
  getenvD env "MYSQL_DB" "calculator"

/-- The SQL text executed by the provisioning step, built by f-string
interpolation: `text(f"CREATE DATABASE IF NOT EXISTS {MYSQL_DB}")`
(line 66).  No quoting or escaping is applied to the interpolated name. -/
def createDbSQL (env : String → Option String) : String :=
  "CREATE DATABASE IF NOT EXISTS " ++ mysqlDbName env

/-! ### Bootstrap wait loop (lines 45-58)

The loop body attempts a connectivity probe (`SELECT 1` over a fresh engine);
any exception counts as "not ready", is followed by `time.sleep(2)`, and the
next iteration retries.  A successful probe breaks out of the loop.  The
`for`/`else` clause raises `RuntimeError("MySQL not reachable")` when all 30
iterations fail.  `probe i` tells whether the probe of iteration `i`
(0-based) succeeds. -/

/-- One run of the wait loop starting at iteration `i` with `remaining`
iterations left, returning the emitted events and the loop's outcome. -/
def waitLoopAux (probe : Nat → Bool) : Nat → Nat → List BootEvent × Except PyErr Unit
  | _, 0 => ([.critical], .error (.runtimeError "MySQL not reachable"))
  | i, remaining + 1 =>
    if probe i then
      ([.attempt (i + 1), .reachable], .ok ())
    else
      let rest := waitLoopAux probe (i + 1) remaining
      (.attempt (i + 1) :: .notReady :: .sleep 2 :: rest.1, rest.2)

/-- The module-level `for i in range(30)` wait loop. -/
def waitLoop (probe : Nat → Bool) : List BootEvent × Except PyErr Unit :=
  waitLoopAux probe 0 30

/-- Whole bootstrap: wait loop, then `CREATE DATABASE IF NOT EXISTS` wrapped
in try/except-reraise (lines 63-71), then `Base.metadata.create_all` wrapped
in try/except-reraise (lines 94-99).  The outcomes of the two provisioning
steps are supplied by the environment (`dbStep`, `tablesStep`); each is
attempted once and a failure propagates without retry.  Request handling
begins only if the result is `.ok` (module import completed, so the FastAPI
app at line 104 exists). -/
def bootstrap (probe : Nat → Bool) (dbName : String)
    (dbStep tablesStep : Except PyErr Unit) : List BootEvent × Except PyErr Unit :=
  let w := waitLoop probe
  match w.2 with
  | .error e => (w.1, .error e)
  | .ok () =>
    match dbStep with
    | .error e => (w.1 ++ [.ensuring dbName, .provisionFailed], .error e)
    | .ok () =>
      match tablesStep with
      | .error e => (w.1 ++ [.ensuring dbName, .ensured, .provisionFailed], .error e)
      | .ok () => (w.1 ++ [.ensuring dbName, .ensured, .tablesCreated], .ok ())

/-- Number of probe attempts recorded in a bootstrap trace. -/
def countAttempts (tr : List BootEvent) : Nat :=
  tr.countP fun e => match e with | .attempt _ => true | _ => false

/-- Number of sleeps recorded in a bootstrap trace. -/
def countSleeps (tr : List BootEvent) : Nat :=
  tr.countP fun e => match e with | .sleep _ => true | _ => false

/-- Number of failed probes (`MySQL not ready` lines) in a bootstrap trace. -/
def countNotReady (tr : List BootEvent) : Nat :=
  tr.countP fun e => match e with | .notReady => true | _ => false

/-- The trace of `k` consecutive failed probe iterations starting at
iteration `i`: each failed probe logs the attempt, the `not ready` warning,
and sleeps 2 seconds. -/
def retryTrace : Nat → Nat → List BootEvent
  | _, 0 => []
  | i, k + 1 => .attempt (i + 1) :: .notReady :: .sleep 2 :: retryTrace (i + 1) k

/-! ### Schema provisioning (lines 63-71 and 94-99)

Modelled from the spec: the semantics of MySQL `CREATE DATABASE IF NOT
EXISTS` and of SQLAlchemy `Base.metadata.create_all` (create tables if
absent) are library/datastore behaviour not present in `src/`; the spec
describes both as idempotent create-if-absent operations that are "safe to
run on every process start regardless of prior state (no error if already
present)". -/

/-- Schema state of the datastore: which databases and which tables exist. -/
structure Schema where
  databases : List String
  tables : List String
deriving DecidableEq

/-- Modelled from the spec: `CREATE DATABASE IF NOT EXISTS name` - creates
the database when absent, is a no-op (and no error) when present. -/
def createDatabaseIfAbsent (name : String) (s : Schema) : Schema :=
  if name ∈ s.databases then s else { s with databases := name :: s.databases }

/-- Modelled from the spec: `Base.metadata.create_all` - creates the
`calculations` table when absent, is a no-op (and no error) when present. -/
def createTablesIfAbsent (s : Schema) : Schema :=
  if "calculations" ∈ s.tables then s else { s with tables := "calculations" :: s.tables }

/-- The try/except wrapper around one provisioning step (lines 63-71 and
94-99): the step is attempted once; on failure the exception is logged and
re-raised unchanged, with no retry. -/
def provisionStep (okTrace failTrace : List BootEvent)
    (step : Except PyErr Schema) : List BootEvent × Except PyErr Schema :=
  match step with
  | .ok s => (okTrace, .ok s)
  | .error e => (failTrace, .error e)

/-! ### Session scope and datastore (lines 135-147)

`get_db` is a generator dependency: it opens a session, yields it to the
per-request logic, logs `DB_SESSION_COMMIT` when the logic returns normally
(note: it logs, but never calls `db.commit()`), rolls back and re-raises
when the logic raises, and closes the session in a `finally` block either
way.  The datastore is split into the durable `Store` (committed rows) and
the per-request `Sess` handle. -/

/-- Durable datastore contents: the committed rows of `calculations`. -/
structure Store where
  rows : List Calculation
deriving DecidableEq

/-- A transactional session handle from the pool.  `commitFail` is the
environment oracle: when `some msg`, the datastore rejects a commit with
that message. -/
structure Sess where
  pending : List Calculation
  commits : Nat
  rollbacks : Nat
  closes : Nat
  commitFail : Option String
deriving DecidableEq

/-- `SessionLocal()`: a fresh handle with no pending work. -/
def Sess.make (commitFail : Option String) : Sess :=
  ⟨[], 0, 0, 0, commitFail⟩

/-- `db.add(record)`: stage a row in the open transaction. -/
def Sess.addRecord (s : Sess) (c : Calculation) : Sess :=
  { s with pending := s.pending ++ [c] }

/-- `db.commit()`: publish the pending rows to the store, or raise the
datastore error dictated by the oracle. -/
def Sess.commit (store : Store) (s : Sess) : Except PyErr (Store × Sess) :=
  match s.commitFail with
  | some msg => .error (.dbError msg)
  | none =>
    .ok ({ rows := store.rows ++ s.pending },
         { s with pending := [], commits := s.commits + 1 })

/-- `db.rollback()`: discard the pending rows. -/
def Sess.rollback (s : Sess) : Sess :=
  { s with pending := [], rollbacks := s.rollbacks + 1 }

/-- `db.close()`: return the handle to the pool. -/
def Sess.close (s : Sess) : Sess :=
  { s with closes := s.closes + 1 }

/-- Outcome of one run of per-request logic against a session: the resulting
store and session, the log lines it wrote, and its return-or-raise result. -/
def SessionLogic (α : Type) : Type :=
  Store → Sess → Store × Sess × List LogEvent × Except PyErr α

/-- `get_db` (lines 135-147) composed around per-request `logic`:
log `DB_SESSION_OPENED`, open a fresh session, run the logic; when it
returns normally, log `DB_SESSION_COMMIT` (no commit call is made); when it
raises, log `DB_SESSION_ROLLBACK` with the exception detail, roll back,
re-raise the same exception; in both cases finally close the session and
log `DB_SESSION_CLOSED`. -/
def withSession {α : Type} (commitFail : Option String) (logic : SessionLogic α)
    (store : Store) : Store × Sess × List LogEvent × Except PyErr α :=
  let r := logic store (Sess.make commitFail)
  match r.2.2.2 with
  | .ok v =>
    (r.1, (r.2.1).close,
     .sessionOpened :: r.2.2.1 ++ [.sessionCommitLog, .sessionClosed], .ok v)
  | .error e =>
    (r.1, ((r.2.1).rollback).close,
     .sessionOpened :: r.2.2.1 ++ [.sessionRollback e.detail, .sessionClosed], .error e)

/-! ### The `add` endpoint (lines 152-172) -/

/-- The body of `POST /add`: log `USER_ACTION`, compute `a + b`, stage one
`Calculation` row, commit it; on success log `ADD_SUCCESS` and return
`{"result": result}`; on any exception log `ADD_FAILED` (recording the
exception detail) and raise `HTTPException(500, "Internal server error")`. -/
def addEndpoint (a b : PyFloat) : SessionLogic AddResult := fun store db =>
  let result := PyFloat.add a b
  let db := db.addRecord ⟨"add", a, b, result⟩
  match Sess.commit store db with
  | .ok sd =>
    (sd.1, sd.2, [.userAction a b, .addSuccess result], .ok ⟨result⟩)
  | .error e =>
    (store, db, [.userAction a b, .addFailed e.detail],
     .error (.httpException 500 "Internal server error"))

/-- One full request to `POST /add` through the `get_db` session scope. -/
def handleAdd (a b : PyFloat) (commitFail : Option String) (store : Store) :
    Store × Sess × List LogEvent × Except PyErr AddResult :=
  withSession commitFail (addEndpoint a b) store

/-! ### Request-logging middleware (lines 109-130)

`log_requests` generates a request id, logs `REQUEST_START`, then runs
`try: response = await call_next(request); return response` with a `finally`
block that logs `REQUEST_END`.  The `finally` block reads the local variable
`response` (via `getattr(response, 'status_code', 'N/A')`); when `call_next`
raised, `response` was never assigned, so evaluating the f-string raises
`UnboundLocalError` before `logger.info` runs: no `REQUEST_END` line is
emitted and, per Python semantics, the exception raised in the `finally`
block replaces the in-flight one.  `nextOutcome` is the outcome of
`call_next`; `durationMs` stands for the measured wall-clock duration. -/
def logRequests (reqId method path client : String) (durationMs : ℚ)
    (nextOutcome : Except PyErr HttpResponse) :
    List LogEvent × Except PyErr HttpResponse :=
  let start := LogEvent.requestStart reqId method path client
  match nextOutcome with
  | .ok resp =>
    ([start, .requestEnd reqId resp.status durationMs], .ok resp)
  | .error _ =>
    ([start], .error (.unboundLocal "response"))

/-- Number of `REQUEST_START` lines in a log trace. -/
def countStart (tr : List LogEvent) : Nat :=
  tr.countP fun e => match e with | .requestStart _ _ _ _ => true | _ => false

/-- Number of `REQUEST_END` lines in a log trace. -/
def countEnd (tr : List LogEvent) : Nat :=
  tr.countP fun e => match e with | .requestEnd _ _ _ => true | _ => false

/-- A per-request logic that stages one row and returns normally without
ever calling commit, used to exercise the session scope in isolation. -/
def stageOnlyLogic : SessionLogic AddResult := fun store db =>
  (store, db.addRecord ⟨"add", .fin 1, .fin 2, .fin 3⟩, [], .ok ⟨.fin 3⟩)

/-! ### Helper lemmas on the wait loop -/

theorem retryTrace_countAttempts : ∀ k i, countAttempts (retryTrace i k) = k := by
  intro k
  induction k with
  | zero => intro i; simp [retryTrace, countAttempts]
  | succ k ih =>
    intro i
    simp [retryTrace, countAttempts, List.countP_cons] at ih ⊢
    exact ih (i + 1)

theorem retryTrace_countSleeps : ∀ k i, countSleeps (retryTrace i k) = k := by
  intro k
  induction k with
  | zero => intro i; simp [retryTrace, countSleeps]
  | succ k ih =>
    intro i
    simp [retryTrace, countSleeps, List.countP_cons] at ih ⊢
    exact ih (i + 1)

theorem retryTrace_countNotReady : ∀ k i, countNotReady (retryTrace i k) = k := by
  intro k
  induction k with
  | zero => intro i; simp [retryTrace, countNotReady]
  | succ k ih =>
    intro i
    simp [retryTrace, countNotReady, List.countP_cons] at ih ⊢
    exact ih (i + 1)

theorem retryTrace_ends_sleep :
    ∀ k i, 1 ≤ k → ∃ pre, retryTrace i k = pre ++ [.sleep 2] := by
  intro k
  induction k with
  | zero => intro i h; omega
  | succ k ih =>
    intro i _
    match k, ih with
    | 0, _ => exact ⟨[.attempt (i + 1), .notReady], rfl⟩
    | k + 1, ih =>
      obtain ⟨pre, hpre⟩ := ih (i + 1) (Nat.succ_le_succ (Nat.zero_le k))
      refine ⟨.attempt (i + 1) :: .notReady :: .sleep 2 :: pre, ?_⟩
      have hstep : retryTrace i (k + 1 + 1) =
          .attempt (i + 1) :: .notReady :: .sleep 2 :: retryTrace (i + 1) (k + 1) := rfl
      rw [hstep, hpre]
      simp

theorem waitLoopAux_all_fail (probe : Nat → Bool) :
    ∀ r i, (∀ j, j < r → probe (i + j) = false) →
      waitLoopAux probe i r =
        (retryTrace i r ++ [.critical], .error (.runtimeError "MySQL not reachable")) := by
  intro r
  induction r with
  | zero => intro i _; simp [waitLoopAux, retryTrace]
  | succ r ih =>
    intro i h
    have h0 : probe i = false := by simpa using h 0 (Nat.succ_pos r)
    have hrest := ih (i + 1) (fun j hj => by
      have := h (j + 1) (Nat.succ_lt_succ hj)
      simpa [Nat.add_comm, Nat.add_assoc, Nat.add_left_comm] using this)
    simp [waitLoopAux, h0, hrest, retryTrace]

theorem waitLoopAux_first_success (probe : Nat → Bool) :
    ∀ k r i, k < r → probe (i + k) = true → (∀ j, j < k → probe (i + j) = false) →
      waitLoopAux probe i r =
        (retryTrace i k ++ [.attempt (i + k + 1), .reachable], .ok ()) := by
  intro k
  induction k with
  | zero =>
    intro r i hr hk _
    match r, hr with
    | r + 1, _ =>
      simp at hk
      simp [waitLoopAux, hk, retryTrace]
  | succ k ih =>
    intro r i hr hk hfail
    match r, hr with
    | r + 1, hr =>
      have h0 : probe i = false := by simpa using hfail 0 (Nat.succ_pos k)
      have hk1 : probe (i + 1 + k) = true := by
        have : i + 1 + k = i + (k + 1) := by omega
        rw [this]; exact hk
      have hrest := ih r (i + 1) (Nat.lt_of_succ_lt_succ hr) hk1 (fun j hj => by
        have := hfail (j + 1) (Nat.succ_lt_succ hj)
        simpa [Nat.add_comm, Nat.add_assoc, Nat.add_left_comm] using this)
      have harr : i + 1 + k + 1 = i + (k + 1) + 1 := by omega
      simp [waitLoopAux, h0, hrest, retryTrace, harr]

theorem waitLoopAux_attempts_le (probe : Nat → Bool) :
    ∀ r i, countAttempts (waitLoopAux probe i r).1 ≤ r := by
  intro r
  induction r with
  | zero => intro i; simp [waitLoopAux, countAttempts]
  | succ r ih =>
    intro i
    by_cases h : probe i
    · simp [waitLoopAux, h, countAttempts, List.countP_cons, List.countP_nil]
    · have := ih (i + 1)
      simp [waitLoopAux, h, countAttempts, List.countP_cons] at this ⊢
      omega

theorem waitLoopAux_sleep_two (probe : Nat → Bool) :
    ∀ r i s, BootEvent.sleep s ∈ (waitLoopAux probe i r).1 → s = 2 := by
  intro r
  induction r with
  | zero =>
    intro i s hs
    simp [waitLoopAux] at hs
  | succ r ih =>
    intro i s hs
    by_cases h : probe i
    · simp [waitLoopAux, h] at hs
    · simp [waitLoopAux, h, List.mem_cons] at hs
      rcases hs with hs | hs
      · exact hs
      · exact ih (i + 1) s hs

theorem waitLoopAux_sleeps_eq_notReady (probe : Nat → Bool) :
    ∀ r i, countSleeps (waitLoopAux probe i r).1 = countNotReady (waitLoopAux probe i r).1 := by
  intro r
  induction r with
  | zero => intro i; simp [waitLoopAux, countSleeps, countNotReady]
  | succ r ih =>
    intro i
    by_cases h : probe i
    · simp [waitLoopAux, h, countSleeps, countNotReady, List.countP_cons]
    · have := ih (i + 1)
      simp [waitLoopAux, h, countSleeps, countNotReady, List.countP_cons] at this ⊢
      omega

theorem bootstrap_countSleeps (probe : Nat → Bool) (dbName : String)
    (dbStep tablesStep : Except PyErr Unit) :
    countSleeps (bootstrap probe dbName dbStep tablesStep).1 =
      countSleeps (waitLoop probe).1 := by
  unfold bootstrap
  rcases h : (waitLoop probe).2 with e | u
  · simp [h]
  · rcases dbStep with e | u2
    · simp [h, countSleeps, List.countP_append]
    · rcases tablesStep with e | u3 <;>
        simp [h, countSleeps, List.countP_append]

/-! ### Claim theorems -/

/-- Claim C5: the bootstrap probes the datastore at most 30 times, sleeping
a fixed 2-unit interval after each failed probe; if the datastore becomes
reachable on some attempt k ≤ 30 the loop exits and provisioning proceeds,
and if all attempts fail the bootstrap raises a fatal error so that no
request handling ever begins. -/
theorem C5_bootstrap_retry_policy (probe : Nat → Bool) (dbName : String)
    (dbStep tablesStep : Except PyErr Unit) :
    countAttempts (waitLoop probe).1 ≤ 30 ∧
    (∀ s, BootEvent.sleep s ∈ (waitLoop probe).1 → s = 2) ∧
    countSleeps (waitLoop probe).1 = countNotReady (waitLoop probe).1 ∧
    (∀ k, k < 30 → probe k = true → (∀ j, j < k → probe j = false) →
      (waitLoop probe).2 = Except.ok () ∧
      countAttempts (waitLoop probe).1 = k + 1 ∧
      BootEvent.ensuring dbName ∈ (bootstrap probe dbName dbStep tablesStep).1) ∧
    ((∀ k, k < 30 → probe k = false) →
      (bootstrap probe dbName dbStep tablesStep).2 =
        Except.error (PyErr.runtimeError "MySQL not reachable")) := by
  refine ⟨waitLoopAux_attempts_le probe 30 0,
          waitLoopAux_sleep_two probe 30 0,
          waitLoopAux_sleeps_eq_notReady probe 30 0, ?_, ?_⟩
  · intro k hk hp hmin
    have hw := waitLoopAux_first_success probe k 30 0 hk (by simpa using hp)
      (fun j hj => by simpa using hmin j hj)
    have hw2 : waitLoop probe =
        (retryTrace 0 k ++ [BootEvent.attempt (k + 1), BootEvent.reachable], Except.ok ()) := by
      simpa [waitLoop] using hw
    refine ⟨by rw [hw2], ?_, ?_⟩
    · rw [hw2]
      have := retryTrace_countAttempts k 0
      simp [countAttempts, List.countP_append, List.countP_cons] at this ⊢
      omega
    · rcases dbStep with e | u <;> rcases tablesStep with e2 | u2 <;>
        simp [bootstrap, hw2]
  · intro hfail
    have hw := waitLoopAux_all_fail probe 30 0 (fun j hj => by simpa using hfail j hj)
    have hw2 : waitLoop probe =
        (retryTrace 0 30 ++ [BootEvent.critical],
         Except.error (PyErr.runtimeError "MySQL not reachable")) := by
      simpa [waitLoop] using hw
    simp [bootstrap, hw2]

/-- Witness for C5 at concrete probes: a datastore reachable on the fifth
attempt makes the wait loop succeed after exactly five probes, and a
datastore that is never reachable makes the whole bootstrap raise
`RuntimeError("MySQL not reachable")`. -/
theorem C5_bootstrap_retry_policy_witness :
    (waitLoop (fun n => decide (n = 4))).2 = Except.ok () ∧
    countAttempts (waitLoop (fun n => decide (n = 4))).1 = 5 ∧
    (bootstrap (fun _ => false) "calculator" (Except.ok ()) (Except.ok ())).2 =
      Except.error (PyErr.runtimeError "MySQL not reachable") := by
  have h1 := (C5_bootstrap_retry_policy (fun n => decide (n = 4)) "calculator"
    (Except.ok ()) (Except.ok ())).2.2.2.1 4 (by decide) (by decide)
    (fun j hj => by simpa using Nat.ne_of_lt hj)
  have h2 := (C5_bootstrap_retry_policy (fun _ => false) "calculator"
    (Except.ok ()) (Except.ok ())).2.2.2.2 (fun k _ => rfl)
  exact ⟨h1.1, h1.2.1, h2⟩

/-- Claim C10: in the bootstrap retry loop the fixed 2-unit sleep is
performed after every failed probe including the final (30th) one, so on
exhaustion the process sleeps one full interval before raising the fatal
error, and after a successful probe no sleep occurs before provisioning
begins (the wait trace ends with the successful attempt and the reachable
line, and the whole bootstrap trace contains no further sleep). -/
theorem C10_sleep_placement (probe : Nat → Bool) (dbName : String)
    (dbStep tablesStep : Except PyErr Unit) :
    ((∀ k, k < 30 → probe k = false) →
      countSleeps (waitLoop probe).1 = 30 ∧
      ∃ pre, (waitLoop probe).1 = pre ++ [BootEvent.sleep 2, BootEvent.critical]) ∧
    (∀ k, k < 30 → probe k = true → (∀ j, j < k → probe j = false) →
      countSleeps (bootstrap probe dbName dbStep tablesStep).1 = k ∧
      (waitLoop probe).1 =
        retryTrace 0 k ++ [BootEvent.attempt (k + 1), BootEvent.reachable]) := by
  constructor
  · intro hfail
    have hw := waitLoopAux_all_fail probe 30 0 (fun j hj => by simpa using hfail j hj)
    have hw2 : (waitLoop probe).1 = retryTrace 0 30 ++ [BootEvent.critical] := by
      simp [waitLoop, hw]
    constructor
    · rw [hw2]
      have := retryTrace_countSleeps 30 0
      simp [countSleeps, List.countP_append, List.countP_cons] at this ⊢
      omega
    · obtain ⟨pre, hpre⟩ := retryTrace_ends_sleep 30 0 (by omega)
      refine ⟨pre, ?_⟩
      rw [hw2, hpre, List.append_assoc]
      rfl
  · intro k hk hp hmin
    have hw := waitLoopAux_first_success probe k 30 0 hk (by simpa using hp)
      (fun j hj => by simpa using hmin j hj)
    have hw2 : (waitLoop probe).1 =
        retryTrace 0 k ++ [BootEvent.attempt (k + 1), BootEvent.reachable] := by
      simpa [waitLoop] using congrArg Prod.fst hw
    constructor
    · rw [bootstrap_countSleeps, hw2]
      have := retryTrace_countSleeps k 0
      simp [countSleeps, List.countP_append, List.countP_cons] at this ⊢
      omega
    · exact hw2

/-- Witness for C10 at concrete probes: with a never-reachable datastore the
wait loop sleeps 30 times, and with a datastore reachable on the third
attempt the whole bootstrap trace contains exactly two sleeps. -/
theorem C10_sleep_placement_witness :
    countSleeps (waitLoop (fun _ => false)).1 = 30 ∧
    countSleeps (bootstrap (fun n => decide (n = 2)) "calculator"
      (Except.ok ()) (Except.ok ())).1 = 2 := by
  have h1 := ((C10_sleep_placement (fun _ => false) "calculator"
    (Except.ok ()) (Except.ok ())).1 (fun k _ => rfl)).1
  have h2 := ((C10_sleep_placement (fun n => decide (n = 2)) "calculator"
    (Except.ok ()) (Except.ok ())).2 2 (by decide) (by decide)
    (fun j hj => by simpa using Nat.ne_of_lt hj)).1
  exact ⟨h1, h2⟩

/-- Evaluation of one `POST /add` request when the commit succeeds:
one row is appended to the store, the session commits once, rolls back
never, closes once, and the endpoint returns the computed result. -/
theorem handleAdd_ok_eq (a b : PyFloat) (store : Store) :
    handleAdd a b none store =
      ({ rows := store.rows ++ [⟨"add", a, b, PyFloat.add a b⟩] },
       ⟨[], 1, 0, 1, none⟩,
       [.sessionOpened, .userAction a b, .addSuccess (PyFloat.add a b),
        .sessionCommitLog, .sessionClosed],
       Except.ok ⟨PyFloat.add a b⟩) := rfl

/-- Evaluation of one `POST /add` request when the datastore rejects the
commit with message `m`: the store is unchanged, the session rolls back once
and closes once, the internal detail `m` goes to the log sink, and the
caller-visible outcome is the generic `HTTPException(500)`. -/
theorem handleAdd_fail_eq (a b : PyFloat) (m : String) (store : Store) :
    handleAdd a b (some m) store =
      (store,
       ⟨[], 0, 1, 1, some m⟩,
       [.sessionOpened, .userAction a b, .addFailed m,
        .sessionRollback "Internal server error", .sessionClosed],
       Except.error (PyErr.httpException 500 "Internal server error")) := rfl

/-- Claim C1 (code bug): when the next stage raises, the middleware's
`finally` block evaluates `getattr(response, 'status_code', 'N/A')` while
the local `response` is unbound, so the `REQUEST_END` line is never emitted
(zero end events) and the in-flight failure is replaced by
`UnboundLocalError`; on the success path exactly one `REQUEST_START` and
one `REQUEST_END` are emitted, in that order, with the same request id. -/
theorem C1_end_event_lost_on_failure (reqId method path client : String)
    (d : ℚ) (e : PyErr) (resp : HttpResponse) :
    countEnd (logRequests reqId method path client d (Except.error e)).1 = 0 ∧
    countStart (logRequests reqId method path client d (Except.error e)).1 = 1 ∧
    (logRequests reqId method path client d (Except.error e)).2 =
      Except.error (PyErr.unboundLocal "response") ∧
    (logRequests reqId method path client d (Except.ok resp)).1 =
      [LogEvent.requestStart reqId method path client,
       LogEvent.requestEnd reqId resp.status d] :=
  ⟨rfl, rfl, rfl, rfl⟩

/-- Counterexample for C2: a wrapped logic that returns normally without
committing leaves the store unchanged and the commit counter at zero after
the session scope finishes — the scope logs `DB_SESSION_COMMIT` but performs
no commit itself, refuting "the session scope itself commits the
transaction". -/
theorem C2_scope_does_not_commit_counterexample :
    (withSession none stageOnlyLogic ⟨[]⟩).2.2.2 = Except.ok ⟨PyFloat.fin 3⟩ ∧
    (withSession none stageOnlyLogic ⟨[]⟩).2.1.commits = 0 ∧
    (withSession none stageOnlyLogic ⟨[]⟩).1.rows = [] ∧
    LogEvent.sessionCommitLog ∈ (withSession none stageOnlyLogic ⟨[]⟩).2.2.1 :=
  ⟨rfl, rfl, rfl, by simp [withSession, stageOnlyLogic]⟩

/-- Claim C2 as amended: when the wrapped logic returns normally, the
session scope emits the commit log line and releases the handle exactly
once, but performs no commit of its own (the commit counter and the store
are exactly those the wrapped logic produced); in this program the commit
is performed by the `add` endpoint itself before it returns. -/
theorem C2_scope_logs_commit_and_releases {α : Type} (cf : Option String)
    (logic : SessionLogic α) (store : Store) (v : α)
    (h : (logic store (Sess.make cf)).2.2.2 = Except.ok v) :
    (withSession cf logic store).2.1.commits =
      (logic store (Sess.make cf)).2.1.commits ∧
    (withSession cf logic store).2.1.closes =
      (logic store (Sess.make cf)).2.1.closes + 1 ∧
    (withSession cf logic store).1 = (logic store (Sess.make cf)).1 ∧
    (withSession cf logic store).2.2.1 =
      .sessionOpened :: (logic store (Sess.make cf)).2.2.1 ++
        [.sessionCommitLog, .sessionClosed] ∧
    (withSession cf logic store).2.2.2 = Except.ok v ∧
    (∀ (a b : PyFloat) (st : Store), (handleAdd a b none st).2.1.commits = 1) := by
  rcases hl : logic store (Sess.make cf) with ⟨st1, s1, lg1, r1⟩
  rw [hl] at h
  simp only at h
  subst h
  refine ⟨?_, ?_, ?_, ?_, ?_, fun a b st => rfl⟩ <;>
    simp [withSession, hl, Sess.close]

/-- Witness for C2's amended theorem at a concrete logic: the scope around
`stageOnlyLogic` closes the handle exactly once more than the logic did and
returns the logic's result. -/
theorem C2_scope_logs_commit_and_releases_witness :
    (withSession none stageOnlyLogic ⟨[]⟩).2.1.closes =
      (stageOnlyLogic ⟨[]⟩ (Sess.make none)).2.1.closes + 1 ∧
    (withSession none stageOnlyLogic ⟨[]⟩).2.2.2 = Except.ok ⟨PyFloat.fin 3⟩ := by
  have h := C2_scope_logs_commit_and_releases none stageOnlyLogic ⟨[]⟩
    ⟨PyFloat.fin 3⟩ rfl
  exact ⟨h.2.1, h.2.2.2.2.1⟩

/-- Counterexample for C3: with operand `a = NaN` the add operation is not
rejected as a client error — when the datastore accepts the commit, the call
returns a success payload and one record containing NaN is persisted; when
the datastore rejects it, the caller receives the generic 500 server fault.
In no environment does a client-error (4xx) status arise. -/
theorem C3_nan_not_rejected_counterexample :
    (handleAdd PyFloat.nan (PyFloat.fin 1) none ⟨[]⟩).2.2.2 =
      Except.ok ⟨PyFloat.nan⟩ ∧
    (handleAdd PyFloat.nan (PyFloat.fin 1) none ⟨[]⟩).1.rows =
      [⟨"add", PyFloat.nan, PyFloat.fin 1, PyFloat.nan⟩] ∧
    (handleAdd PyFloat.nan (PyFloat.fin 1) (some "datastore rejected nan") ⟨[]⟩).2.2.2 =
      Except.error (PyErr.httpException 500 "Internal server error") :=
  ⟨rfl, rfl, rfl⟩

/-- Claim C3 as amended: the add operation performs no finiteness
validation; for a non-finite operand the (non-finite) result is computed and
persistence is attempted exactly as for finite operands — if the datastore
accepts the commit, one record is persisted and a success payload returned;
if it rejects the commit, the caller receives the generic 500 server fault
and zero records are persisted.  A client-error status is never produced. -/
theorem C3_no_finiteness_validation (a b : PyFloat) (store : Store)
    (ha : a.isFinite = false) :
    ((handleAdd a b none store).2.2.2 = Except.ok ⟨PyFloat.add a b⟩ ∧
     (handleAdd a b none store).1.rows =
       store.rows ++ [⟨"add", a, b, PyFloat.add a b⟩]) ∧
    (∀ m, (handleAdd a b (some m) store).2.2.2 =
        Except.error (PyErr.httpException 500 "Internal server error") ∧
      (handleAdd a b (some m) store).1.rows = store.rows) :=
  ⟨⟨rfl, rfl⟩, fun m => ⟨rfl, rfl⟩⟩

/-- Witness for C3's amended theorem at `a = NaN`. -/
theorem C3_no_finiteness_validation_witness :
    PyFloat.isFinite PyFloat.nan = false ∧
    (handleAdd PyFloat.nan (PyFloat.fin 1) (some "err") ⟨[]⟩).2.2.2 =
      Except.error (PyErr.httpException 500 "Internal server error") :=
  ⟨rfl, ((C3_no_finiteness_validation PyFloat.nan (PyFloat.fin 1) ⟨[]⟩ rfl).2 "err").1⟩

/-- Claim C4: for all finite operand pairs, a single successful call to the
add operation persists exactly one record whose `result` equals the
arithmetic sum of the operands, and the response result equals that
persisted result. -/
theorem C4_add_persists_sum (a b : PyFloat) (qa qb : ℚ) (store : Store)
    (ha : a = PyFloat.fin qa) (hb : b = PyFloat.fin qb) :
    (handleAdd a b none store).1.rows =
      store.rows ++ [⟨"add", a, b, PyFloat.fin (qa + qb)⟩] ∧
    (handleAdd a b none store).2.2.2 = Except.ok ⟨PyFloat.fin (qa + qb)⟩ := by
  subst ha hb
  exact ⟨rfl, rfl⟩

/-- Witness for C4 at the spec's scenario: operands 2.5 and 4.5 yield result
7.0 and exactly one persisted record with operation "add". -/
theorem C4_add_persists_sum_witness :
    (handleAdd (PyFloat.fin (5/2)) (PyFloat.fin (9/2)) none ⟨[]⟩).1.rows =
      [⟨"add", PyFloat.fin (5/2), PyFloat.fin (9/2), PyFloat.fin 7⟩] ∧
    (handleAdd (PyFloat.fin (5/2)) (PyFloat.fin (9/2)) none ⟨[]⟩).2.2.2 =
      Except.ok ⟨PyFloat.fin 7⟩ := by
  have h := C4_add_persists_sum (PyFloat.fin (5/2)) (PyFloat.fin (9/2))
    (5/2) (9/2) ⟨[]⟩ rfl rfl
  have hq : (5 : ℚ)/2 + 9/2 = 7 := by norm_num
  rw [hq] at h
  simpa using h

/-- Claim C6: for every invocation of the session scope, the handle is
closed exactly once more than the wrapped logic left it; when the wrapped
logic raises, the scope rolls the transaction back, clears the pending rows,
and re-raises the original failure unchanged; for the program's own `add`
logic, a failed request leaves the store exactly as it was and closes the
handle exactly once. -/
theorem C6_session_scope_invariant {α : Type} (cf : Option String)
    (logic : SessionLogic α) (store : Store) :
    (withSession cf logic store).2.1.closes =
      (logic store (Sess.make cf)).2.1.closes + 1 ∧
    (∀ e : PyErr, (logic store (Sess.make cf)).2.2.2 = Except.error e →
      (withSession cf logic store).2.2.2 = Except.error e ∧
      (withSession cf logic store).2.1.rollbacks =
        (logic store (Sess.make cf)).2.1.rollbacks + 1 ∧
      (withSession cf logic store).2.1.pending = []) ∧
    (∀ (a b : PyFloat) (m : String) (st : Store),
      (handleAdd a b (some m) st).1.rows = st.rows ∧
      (handleAdd a b (some m) st).2.1.closes = 1 ∧
      (handleAdd a b (some m) st).2.1.rollbacks = 1) := by
  rcases hl : logic store (Sess.make cf) with ⟨st1, s1, lg1, r1⟩
  refine ⟨?_, ?_, fun a b m st => ⟨rfl, rfl, rfl⟩⟩
  · rcases r1 with e | v <;>
      simp [withSession, hl, Sess.close, Sess.rollback]
  · intro e he
    have he2 : r1 = Except.error e := he
    subst he2
    refine ⟨?_, ?_, ?_⟩ <;>
      simp [withSession, hl, Sess.close, Sess.rollback]

/-- Witness for C6 at a concrete failing request: the datastore rejects the
commit, the endpoint raises the generic `HTTPException(500)`, and the scope
re-raises exactly it after one rollback. -/
theorem C6_session_scope_invariant_witness :
    (withSession (some "boom") (addEndpoint (PyFloat.fin 1) (PyFloat.fin 2)) ⟨[]⟩).2.2.2 =
      Except.error (PyErr.httpException 500 "Internal server error") ∧
    (withSession (some "boom") (addEndpoint (PyFloat.fin 1) (PyFloat.fin 2)) ⟨[]⟩).2.1.rollbacks =
      (addEndpoint (PyFloat.fin 1) (PyFloat.fin 2) ⟨[]⟩
        (Sess.make (some "boom"))).2.1.rollbacks + 1 := by
  have h := (C6_session_scope_invariant (some "boom")
    (addEndpoint (PyFloat.fin 1) (PyFloat.fin 2)) ⟨[]⟩).2.1
    (PyErr.httpException 500 "Internal server error") rfl
  exact ⟨h.1, h.2.1⟩

/-- Claim C7: schema provisioning is idempotent — creating the database and
the tables when absent succeeds regardless of prior state, a second run
changes nothing and raises no error — and an exception raised during a
provisioning step propagates unchanged without retry. -/
theorem C7_provisioning_idempotent (name : String) (s : Schema) (e : PyErr)
    (okTr failTr : List BootEvent) :
    createDatabaseIfAbsent name (createDatabaseIfAbsent name s) =
      createDatabaseIfAbsent name s ∧
    createTablesIfAbsent (createTablesIfAbsent s) = createTablesIfAbsent s ∧
    name ∈ (createDatabaseIfAbsent name s).databases ∧
    "calculations" ∈ (createTablesIfAbsent s).tables ∧
    provisionStep okTr failTr (Except.error e) = (failTr, Except.error e) ∧
    (∀ s2, provisionStep okTr failTr (Except.ok s2) = (okTr, Except.ok s2)) := by
  refine ⟨?_, ?_, ?_, ?_, rfl, fun s2 => rfl⟩
  · by_cases h : name ∈ s.databases <;>
      simp [createDatabaseIfAbsent, h]
  · by_cases h : "calculations" ∈ s.tables <;>
      simp [createTablesIfAbsent, h]
  · by_cases h : name ∈ s.databases <;>
      simp [createDatabaseIfAbsent, h]
  · by_cases h : "calculations" ∈ s.tables <;>
      simp [createTablesIfAbsent, h]

/-- Claim C8: every failure inside the add operation's persistence yields
the same caller-visible outcome — the generic `HTTPException(500, "Internal
server error")` — independent of the internal failure's content, while the
internal detail is recorded in the observability sink (`ADD_FAILED` with the
exception detail, and the rollback line). -/
theorem C8_uniform_error_payload (a1 b1 a2 b2 : PyFloat) (m1 m2 : String)
    (st1 st2 : Store) :
    (handleAdd a1 b1 (some m1) st1).2.2.2 = (handleAdd a2 b2 (some m2) st2).2.2.2 ∧
    (handleAdd a1 b1 (some m1) st1).2.2.2 =
      Except.error (PyErr.httpException 500 "Internal server error") ∧
    LogEvent.addFailed m1 ∈ (handleAdd a1 b1 (some m1) st1).2.2.1 := by
  refine ⟨rfl, rfl, ?_⟩
  rw [handleAdd_fail_eq]
  simp

/-- Claim C9: the provisioning statement is built by direct textual
interpolation of the `MYSQL_DB` configuration value — for every value of
that environment variable the SQL is exactly
`"CREATE DATABASE IF NOT EXISTS "` concatenated with the value, with no
quoting or escaping, and the documented default applies when the variable
is absent. -/
theorem C9_sql_textual_interpolation (env : String → Option String) :
    (∀ v, env "MYSQL_DB" = some v →
      createDbSQL env = "CREATE DATABASE IF NOT EXISTS " ++ v) ∧
    (env "MYSQL_DB" = none →
      createDbSQL env = "CREATE DATABASE IF NOT EXISTS calculator") := by
  constructor
  · intro v hv
    simp [createDbSQL, mysqlDbName, getenvD, hv]
  · intro hv
    simp [createDbSQL, mysqlDbName, getenvD, hv]

/-- Witness for C9 at a concrete environment: a value containing SQL
metacharacters is interpolated verbatim into the statement. -/
theorem C9_sql_textual_interpolation_witness :
    createDbSQL (fun k => if k = "MYSQL_DB" then some "calculator; DROP DATABASE prod" else none) =
      "CREATE DATABASE IF NOT EXISTS calculator; DROP DATABASE prod" := by
  have h := (C9_sql_textual_interpolation
    (fun k => if k = "MYSQL_DB" then some "calculator; DROP DATABASE prod" else none)).1
    "calculator; DROP DATABASE prod" (by simp)
  simpa using h

end Calc
